import Mathlib

/-
Verification development for the vid_conference signaling server.

The model below is a shallow embedding of the server-side signaling logic:
the Socket.IO event handlers of `socket-handler.js` together with the
mediasoup-facing helpers of `mediasoup-handler.js` (transport creation,
producer creation, consumer creation).  The `peers` Map of
`socket-handler.js` is modelled as an association list keyed by socket id
(JavaScript `Map` preserves insertion order; keys are unique socket ids).
Calls into mediasoup (the external media engine) and emissions over
Socket.IO are recorded as an explicit ordered trace of `Action`s, so that
ordering properties (what is emitted, when, and relative to which state
mutation) can be stated and proved.  Each handler is translated
statement-by-statement from the JavaScript source: a `try { ... } catch`
that reports an error to the callback becomes an error branch producing a
`replyError` action, and the straight-line success path produces its
actions in the source order.
-/

set_option autoImplicit false

namespace VidConf

/-- RTP capabilities are opaque to the signaling layer and are only ever
passed through to the media engine; they are modelled as strings. -/
abbrev RtpCaps := String

/-- Model of a mediasoup WebRtcTransport as tracked by the server.
`tType` is `appData.type` ("send" or "recv") set at creation.
`closeFails` models whether the engine-side `transport.close()` call
throws when invoked (an engine-environment property, not decided by the
signaling layer). -/
structure Transport where
  id : String
  socketId : String
  tType : String
  closeFails : Bool
deriving Repr, DecidableEq

/-- Model of a mediasoup Producer as tracked in a peer's `producers`
array: id, kind, and the appData stored on the producer. -/
structure Producer where
  id : String
  kind : String
  appData : List (String × String)
deriving Repr, DecidableEq

/-- Model of a mediasoup Consumer as tracked in a peer's `consumers`
array. -/
structure Consumer where
  id : String
  kind : String
  producerId : String
deriving Repr, DecidableEq

/-- Per-peer session state: the value stored in the `peers` Map of
`socket-handler.js` (`{ transports: [], producers: [], consumers: [] }`;
the stored socket object is represented by the key). -/
structure Peer where
  transports : List Transport
  producers : List Producer
  consumers : List Consumer
deriving Repr, DecidableEq

/-- The value a fresh connection stores in the peers map. -/
def emptyPeer : Peer := { transports := [], producers := [], consumers := [] }

/-- The `peers` Map: an insertion-ordered association list from socket id
to session state. -/
abbrev Peers := List (String × Peer)

/-- Map lookup (`peers.get(sid)`): first entry with the given key. -/
def lookupPeer : Peers → String → Option Peer
  | [], _ => none
  | e :: rest, sid => if e.1 == sid then some e.2 else lookupPeer rest sid

/-- In-place update of the stored session object: JavaScript code mutates
the object returned by `peers.get`, which updates the map entry while
keeping its insertion position. -/
def setPeer (ps : Peers) (sid : String) (p : Peer) : Peers :=
  ps.map (fun e => if e.1 == sid then (e.1, p) else e)

/-- Map removal (`peers.delete(sid)`). -/
def deletePeer (ps : Peers) (sid : String) : Peers :=
  ps.filter (fun e => !(e.1 == sid))

/-- The connected socket ids, in insertion order. -/
def peerIds (ps : Peers) : List String := ps.map (fun e => e.1)

/-- Registration performed by the `connection` handler:
`peers.set(socket.id, { transports: [], producers: [], consumers: [], socket })`.
A `Map.set` on an absent key appends at the end; on a present key it
replaces in place. -/
def connectHandler (ps : Peers) (sid : String) : Peers :=
  if ps.any (fun e => e.1 == sid) then setPeer ps sid emptyPeer
  else ps ++ [(sid, emptyPeer)]

/-- The producer descriptor pushed by the `getProducers` handler:
`{ socketId: id, producerId: producer.id, kind: producer.kind, appData: producer.appData }`. -/
structure ProducerDescriptor where
  socketId : String
  producerId : String
  kind : String
  appData : List (String × String)
deriving Repr, DecidableEq

/-- Observable actions of a handler run, in execution order: Socket.IO
emissions, calls into the media engine, mutations of the shared peer
registry, and the reply passed to the request callback. -/
inductive Action where
  | emitParticipantLeft (socketId : String)
  | closeTransport (transportId : String) (failed : Bool)
  | registryDelete (socketId : String)
  | recordProducer (socketId producerId : String)
  | recordConsumer (socketId consumerId : String)
  | replyTransport (transportId : String)
  | replyId (producerId : String)
  | replyConnected
  | replyConsumer (consumerId producerId : String)
  | replyError (msg : String)
  | emitNewProducer (socketId producerId kind : String)
      (appData : List (String × String)) (recipients : List String)
  | engineConnect (transportId : String)
  | engineCreateConsumer (producerId transportId : String)
deriving Repr, DecidableEq

/-- Model of the external media engine as far as the `consume` path
observes it: `router.canConsume({producerId, rtpCapabilities})` and the
kind of the consumer it creates. -/
structure Engine where
  canConsume : String → RtpCaps → Bool
  consumerKind : String → String

/-- The `disconnect` handler of `socket-handler.js` (lines 31-58):
emit `participantLeft` to everyone first; then, if the peer is still in
the map, close each of its transports with each `close()` wrapped in its
own try/catch (a failure is logged and does not stop the loop); finally
`peers.delete(socket.id)`. -/
def disconnectHandler (ps : Peers) (sid : String) : Peers × List Action :=
  let closes :=
    match lookupPeer ps sid with
    | some peer => peer.transports.map (fun t => Action.closeTransport t.id t.closeFails)
    | none => []
  (deletePeer ps sid,
   Action.emitParticipantLeft sid :: closes ++ [Action.registryDelete sid])

/-- The optional payload of a `createWebRtcTransport` request; `ttype`
models the `type` field of the client-supplied `data` object. -/
structure TransportPayload where
  ttype : Option String
deriving Repr, DecidableEq

/-- The transport direction chosen by the handler:
`data && data.type === 'recv' ? 'recv' : 'send'`. -/
def transportTypeOf (data : Option TransportPayload) : String :=
  match data with
  | some d => if d.ttype == some ("recv") then ("recv") else ("send")
  | none => ("send")

/-- The `createWebRtcTransport` handler of `socket-handler.js` (lines
89-107) combined with `mediasoupHandler.createWebRtcTransport`: look the
peer up (error reply if absent), choose the direction tag from the
payload, have the engine create the transport (tagged with
`appData = { socketId, type }`), push it onto `peer.transports`, and
reply with the transport parameters.  `freshTid` is the engine-assigned
transport id. -/
def createWebRtcTransportHandler (ps : Peers) (sid : String)
    (data : Option TransportPayload) (freshTid : String) : Peers × List Action :=
  match lookupPeer ps sid with
  | none => (ps, [Action.replyError ("Peer not found")])
  | some peer =>
    let ttype := transportTypeOf data
    let t : Transport := { id := freshTid, socketId := sid, tType := ttype, closeFails := false }
    (setPeer ps sid { peer with transports := peer.transports ++ [t] },
     [Action.replyTransport freshTid])

/-- The `connectTransport` handler of `socket-handler.js` (lines
129-144): look the peer up, find the transport by id within that peer's
own transports, error reply (and no engine call) if absent, otherwise
delegate `transport.connect` to the engine and reply `{connected: true}`. -/
def connectTransportHandler (ps : Peers) (sid : String) (tid : String) :
    Peers × List Action :=
  match lookupPeer ps sid with
  | none => (ps, [Action.replyError ("Failed to connect transport: Peer not found")])
  | some peer =>
    match peer.transports.find? (fun t => t.id == tid) with
    | none =>
        (ps, [Action.replyError
          ("Failed to connect transport: Transport with ID " ++ tid ++ " not found")])
    | some t => (ps, [Action.engineConnect t.id, Action.replyConnected])

/-- Arguments of a `produce` request: `{ transportId, kind, rtpParameters,
appData }`.  `rtpAppData` models `rtpParameters.appData`, the
client-supplied metadata that `createProducer` merges into the producer's
appData. -/
structure ProduceArgs where
  transportId : String
  kind : String
  rtpAppData : List (String × String)
deriving Repr, DecidableEq

/-- The `produce` handler of `socket-handler.js` (lines 148-184) combined
with `mediasoupHandler.createProducer`: look the peer up, find the
transport by id, error replies if missing or not tagged "send";
otherwise the engine creates the producer (appData is the client appData
with the transport's `socketId` entry added, later entries overriding),
the producer is pushed onto `peer.producers`, the callback is answered
with `{id}`, and only then `socket.broadcast.emit('newProducer', ...)`
fires towards every other currently connected peer.  `freshPid` is the
engine-assigned producer id. -/
def produceHandler (ps : Peers) (sid : String) (args : ProduceArgs)
    (freshPid : String) : Peers × List Action :=
  match lookupPeer ps sid with
  | none => (ps, [Action.replyError ("Failed to produce media: Peer not found")])
  | some peer =>
    match peer.transports.find? (fun t => t.id == args.transportId) with
    | none =>
        (ps, [Action.replyError
          ("Failed to produce media: Send transport with ID " ++ args.transportId ++ " not found")])
    | some t =>
      if t.tType == ("send") then
        let appData := args.rtpAppData ++ [(("socketId"), t.socketId)]
        let producer : Producer := { id := freshPid, kind := args.kind, appData := appData }
        let ps' := setPeer ps sid { peer with producers := peer.producers ++ [producer] }
        (ps', [Action.recordProducer sid freshPid,
               Action.replyId freshPid,
               Action.emitNewProducer sid freshPid args.kind appData
                 ((peerIds ps').filter (fun q => !(q == sid)))])
      else
        (ps, [Action.replyError
          ("Failed to produce media: Transport " ++ args.transportId ++ " is not a send transport.")])

/-- Transport selection of the `consume` handler (lines 192-206): with an
explicit `transportId` the transport must match that id and be tagged
"recv"; without one, the first "recv"-tagged transport of the peer's own
list is taken. -/
def selectTransport (peer : Peer) (transportId : Option String) : Option Transport :=
  match transportId with
  | some tid => peer.transports.find? (fun t => t.id == tid && t.tType == ("recv"))
  | none => peer.transports.find? (fun t => t.tType == ("recv"))

/-- The `consume` handler of `socket-handler.js` (lines 187-223) combined
with `mediasoupHandler.createConsumer`: look the peer up, select the
receiving transport (distinct error replies for the explicit-id and the
omitted-id case, with no engine call); then `createConsumer` first asks
the engine `canConsume` and throws without creating anything if
incompatible; only on a compatible pair does the engine create the
consumer, which is pushed onto `peer.consumers` before the reply.
`freshCid` is the engine-assigned consumer id. -/
def consumeHandler (eng : Engine) (ps : Peers) (sid : String)
    (producerId : String) (rtpCapabilities : RtpCaps) (transportId : Option String)
    (freshCid : String) : Peers × List Action :=
  match lookupPeer ps sid with
  | none => (ps, [Action.replyError ("Failed to consume producer: Peer not found")])
  | some peer =>
    match selectTransport peer transportId with
    | none =>
      match transportId with
      | some tid =>
          (ps, [Action.replyError
            ("Failed to consume producer: Receiving transport " ++ tid ++ " not found or not of type recv.")])
      | none =>
          (ps, [Action.replyError
            ("Failed to consume producer: No receiving transport found. Please create one.")])
    | some t =>
      if eng.canConsume producerId rtpCapabilities then
        let c : Consumer :=
          { id := freshCid, kind := eng.consumerKind producerId, producerId := producerId }
        (setPeer ps sid { peer with consumers := peer.consumers ++ [c] },
         [Action.engineCreateConsumer producerId t.id,
          Action.recordConsumer sid freshCid,
          Action.replyConsumer freshCid producerId])
      else
        (ps, [Action.replyError
          ("Failed to consume producer: Client (socket: " ++ t.socketId ++ ") cannot consume producer " ++ producerId)])

/-- The descriptor built for one producer by the `getProducers` loop. -/
def mkDescriptor (sid : String) (producer : Producer) : ProducerDescriptor :=
  { socketId := sid, producerId := producer.id, kind := producer.kind,
    appData := producer.appData }

/-- The `getProducers` handler of `socket-handler.js` (lines 227-250):
iterate over all map entries in order, skip the requester's own entry,
and push one descriptor per producer in that peer's list order. -/
def getProducersHandler (ps : Peers) (sid : String) : List ProducerDescriptor :=
  (ps.filter (fun e => !(e.1 == sid))).flatMap
    (fun e => e.2.producers.map (mkDescriptor e.1))

/-- Recognizer for `emitNewProducer` actions. -/
def isEmitNewProducer : Action → Bool
  | Action.emitNewProducer _ _ _ _ _ => true
  | _ => false

/-- Recognizer for `emitParticipantLeft` actions. -/
def isEmitParticipantLeft : Action → Bool
  | Action.emitParticipantLeft _ => true
  | _ => false

/-- Recognizer for `closeTransport` actions. -/
def isCloseTransport : Action → Bool
  | Action.closeTransport _ _ => true
  | _ => false

/-- Recognizer for `registryDelete` actions. -/
def isRegistryDelete : Action → Bool
  | Action.registryDelete _ => true
  | _ => false

/-- Recognizer for `replyError` actions. -/
def isReplyError : Action → Bool
  | Action.replyError _ => true
  | _ => false

/-- Recognizer for `engineCreateConsumer` actions. -/
def isEngineCreateConsumer : Action → Bool
  | Action.engineCreateConsumer _ _ => true
  | _ => false

/-- The per-session invariant asserted by the specification: at most one
"send"-tagged and at most one "recv"-tagged transport at any time. -/
def atMostOnePerDirection (peer : Peer) : Prop :=
  (peer.transports.filter (fun t => t.tType == ("send"))).length ≤ 1 ∧
  (peer.transports.filter (fun t => t.tType == ("recv"))).length ≤ 1

instance : DecidablePred atMostOnePerDirection := fun peer =>
  inferInstanceAs (Decidable (_ ∧ _))

/-- The ordering the specification asserts for teardown: the registry
removal (step 2) happens before any transport close (step 3), so no
`closeTransport` action may appear before the first `registryDelete`. -/
def removalPrecedesCloses (tr : List Action) : Bool :=
  (tr.takeWhile (fun a => !(isRegistryDelete a))).all (fun a => !(isCloseTransport a))

/-- The idempotence the specification asserts for teardown: running the
disconnect sequence a second time for the same peer id broadcasts no
second `participantLeft` event. -/
def secondTeardownSilent (ps : Peers) (sid : String) : Prop :=
  ((disconnectHandler (disconnectHandler ps sid).1 sid).2.countP isEmitParticipantLeft) = 0

instance : ∀ ps sid, Decidable (secondTeardownSilent ps sid) := fun ps sid =>
  inferInstanceAs (Decidable (_ = _))

/-- Concrete reachable state: one client "A" has connected. -/
def stateA : Peers := connectHandler [] ("A")

/-- Concrete reachable state: client "A" then created one send transport. -/
def stateA1 : Peers :=
  (createWebRtcTransportHandler stateA ("A") (some { ttype := some ("send") }) ("t1")).1

/-- Concrete reachable state: client "A" created a second send transport
without the first being closed. -/
def stateA2 : Peers :=
  (createWebRtcTransportHandler stateA1 ("A") (some { ttype := some ("send") }) ("t2")).1

/-- The session of "A" in `stateA2`. -/
def stateA2peer : Peer := (lookupPeer stateA2 ("A")).getD emptyPeer

/-- The send transport "t1" created in `stateA1`. -/
def sendT1 : Transport :=
  { id := ("t1"), socketId := ("A"), tType := ("send"), closeFails := false }

/-- The session of "A" in `stateA1`: one send transport. -/
def peerA1 : Peer := { transports := [sendT1], producers := [], consumers := [] }

/-- Concrete reachable state: "A" with its send transport, then "B"
connects with an empty session. -/
def stateAB : Peers := connectHandler stateA1 ("B")

/-- A recv transport for consume-path witnesses. -/
def recvT1 : Transport :=
  { id := ("r1"), socketId := ("A"), tType := ("recv"), closeFails := false }

/-- A session owning only the recv transport `recvT1`. -/
def peerRecv : Peer := { transports := [recvT1], producers := [], consumers := [] }

/-- A registry holding only the recv-capable session of "A". -/
def stateRecv : Peers := [(("A"), peerRecv)]

/-- An engine that refuses every producer-capability pair. -/
def refuseEngine : Engine :=
  { canConsume := fun _ _ => false, consumerKind := fun _ => ("audio") }

/-- A transport whose engine-side close call throws. -/
def failT1 : Transport :=
  { id := ("f1"), socketId := ("A"), tType := ("send"), closeFails := true }

/-- A second, well-behaved transport in the same session. -/
def failT2 : Transport :=
  { id := ("f2"), socketId := ("A"), tType := ("recv"), closeFails := false }

/-- A session whose first transport fails to close. -/
def failPeer : Peer :=
  { transports := [failT1, failT2], producers := [], consumers := [] }

/-- A registry holding the partially-failing session of "A". -/
def failState : Peers := [(("A"), failPeer)]

/-- A producer owned by "A" for catalog witnesses. -/
def producerP1 : Producer := { id := ("p1"), kind := ("audio"), appData := [] }

/-- A session of "A" owning `sendT1` and the producer `producerP1`. -/
def peerAP : Peer :=
  { transports := [sendT1], producers := [producerP1], consumers := [] }

/-- A two-peer registry: producing "A" and empty "B". -/
def demoState : Peers := [(("A"), peerAP), (("B"), emptyPeer)]

/-- Updating a registered session keeps it registered, with the new value. -/
theorem lookupPeer_setPeer_self (ps : Peers) (sid : String) (p q : Peer)
    (h : lookupPeer ps sid = some p) :
    lookupPeer (setPeer ps sid q) sid = some q := by
  induction ps with
  | nil => simp [lookupPeer] at h
  | cons e rest ih =>
    by_cases he : (e.1 == sid) = true
    · simp [setPeer, lookupPeer, he]
    · simp only [lookupPeer, he, if_neg, Bool.false_eq_true, if_false] at h
      simpa [setPeer, lookupPeer, he] using ih h

/-- Updating a registered session puts the updated entry in the map. -/
theorem mem_setPeer_self (ps : Peers) (sid : String) (p q : Peer)
    (h : lookupPeer ps sid = some p) : (sid, q) ∈ setPeer ps sid q := by
  induction ps with
  | nil => simp [lookupPeer] at h
  | cons e rest ih =>
    by_cases he : (e.1 == sid) = true
    · have heq : e.1 = sid := eq_of_beq he
      simp [setPeer, he, heq]
    · simp only [lookupPeer, he, Bool.false_eq_true, if_false] at h
      simp only [setPeer, List.map_cons, List.mem_cons]
      right
      simpa [setPeer] using ih h

/-- After `peers.delete(sid)` the id is no longer registered. -/
theorem lookupPeer_deletePeer_self (ps : Peers) (sid : String) :
    lookupPeer (deletePeer ps sid) sid = none := by
  induction ps with
  | nil => rfl
  | cons e rest ih =>
    by_cases he : (e.1 == sid) = true
    · simpa [deletePeer, List.filter, he] using ih
    · simpa [deletePeer, List.filter, lookupPeer, he] using ih

/-- Deleting a peer id twice is the same as deleting it once. -/
theorem deletePeer_deletePeer (ps : Peers) (sid : String) :
    deletePeer (deletePeer ps sid) sid = deletePeer ps sid := by
  simp [deletePeer, List.filter_filter]

/-- Membership description of the `getProducers` result: exactly the
descriptors of producers owned by registered sessions other than the
requester's. -/
theorem mem_getProducers (ps : Peers) (sid : String) (d : ProducerDescriptor) :
    d ∈ getProducersHandler ps sid ↔
      ∃ q peerQ, (q, peerQ) ∈ ps ∧ q ≠ sid ∧
        ∃ producer ∈ peerQ.producers, d = mkDescriptor q producer := by
  unfold getProducersHandler
  rw [List.mem_flatMap]
  constructor
  · rintro ⟨e, heMem, hd⟩
    rw [List.mem_filter] at heMem
    obtain ⟨heMem, hePred⟩ := heMem
    rw [List.mem_map] at hd
    obtain ⟨producer, hpMem, rfl⟩ := hd
    refine ⟨e.1, e.2, heMem, ?_, producer, hpMem, rfl⟩
    intro hEq
    rw [hEq] at hePred
    simp at hePred
  · rintro ⟨q, peerQ, hMem, hne, producer, hpMem, rfl⟩
    refine ⟨(q, peerQ), ?_, ?_⟩
    · rw [List.mem_filter]
      exact ⟨hMem, by simp [hne]⟩
    · rw [List.mem_map]
      exact ⟨producer, hpMem, rfl⟩

/-- Every descriptor returned by `getProducers` names a registered peer. -/
theorem socketId_mem_of_mem_getProducers (ps : Peers) (sid : String)
    (d : ProducerDescriptor) (h : d ∈ getProducersHandler ps sid) :
    d.socketId ∈ peerIds ps := by
  rw [mem_getProducers] at h
  obtain ⟨q, peerQ, hMem, _, producer, _, rfl⟩ := h
  exact List.mem_map.mpr ⟨(q, peerQ), hMem, rfl⟩

/-- Descriptors attributed to an unregistered id never occur. -/
theorem getProducers_filter_notMem (ps : Peers) (sid q : String)
    (hq : q ∉ peerIds ps) :
    (getProducersHandler ps sid).filter (fun d => d.socketId == q) = [] := by
  rw [List.eq_nil_iff_forall_not_mem]
  intro d hd
  rw [List.mem_filter] at hd
  obtain ⟨hd, hpred⟩ := hd
  have hMem := socketId_mem_of_mem_getProducers ps sid d hd
  rw [eq_of_beq hpred] at hMem
  exact hq hMem

/-- With unique registry keys, the descriptors attributed to one other
peer are exactly that peer's producers, in insertion order. -/
theorem getProducers_filter_key (ps : Peers) (sid q : String) (peerQ : Peer)
    (hNodup : (peerIds ps).Nodup) (hMem : (q, peerQ) ∈ ps) (hq : q ≠ sid) :
    (getProducersHandler ps sid).filter (fun d => d.socketId == q) =
      peerQ.producers.map (mkDescriptor q) := by
  induction ps with
  | nil => simp at hMem
  | cons e rest ih =>
    have hNodupRest : (peerIds rest).Nodup := by
      simpa [peerIds] using hNodup.of_cons
    have hHead : e.1 ∉ peerIds rest := by
      have := hNodup
      simp only [peerIds, List.map_cons, List.nodup_cons] at this
      exact this.1
    rcases List.mem_cons.mp hMem with hEq | hRest
    · have he1 : e.1 = q := by rw [← hEq]
      have he2 : e.2 = peerQ := by rw [← hEq]
      have hkeep : (!(e.1 == sid)) = true := by
        simp [he1, hq]
      unfold getProducersHandler
      simp only [List.filter_cons, hkeep, if_true]
      rw [List.flatMap_cons, List.filter_append]
      have hfirst :
          ((e.2.producers.map (mkDescriptor e.1)).filter (fun d => d.socketId == q)) =
            peerQ.producers.map (mkDescriptor q) := by
        rw [he1, he2]
        apply List.filter_eq_self.mpr
        intro d hd
        rw [List.mem_map] at hd
        obtain ⟨producer, _, rfl⟩ := hd
        simp [mkDescriptor]
      have hrest :
          ((getProducersHandler rest sid).filter (fun d => d.socketId == q)) = [] := by
        apply getProducers_filter_notMem
        rw [← he1]
        exact hHead
      rw [show ((rest.filter (fun e => !(e.1 == sid))).flatMap
            (fun e => e.2.producers.map (mkDescriptor e.1))) =
          getProducersHandler rest sid from rfl]
      rw [hfirst, hrest, List.append_nil]
    · have hne1 : e.1 ≠ q := by
        intro hEq1
        apply hHead
        rw [hEq1]
        exact List.mem_map.mpr ⟨(q, peerQ), hRest, rfl⟩
      by_cases he : (e.1 == sid) = true
      · unfold getProducersHandler
        simp only [List.filter_cons, he, Bool.not_true, if_false]
        exact ih hNodupRest hRest
      · have hkeep : (!(e.1 == sid)) = true := by simp [he]
        unfold getProducersHandler
        simp only [List.filter_cons, hkeep, if_true]
        rw [List.flatMap_cons, List.filter_append]
        have hfirst :
            ((e.2.producers.map (mkDescriptor e.1)).filter (fun d => d.socketId == q)) = [] := by
          rw [List.eq_nil_iff_forall_not_mem]
          intro d hd
          rw [List.mem_filter] at hd
          obtain ⟨hd, hpred⟩ := hd
          rw [List.mem_map] at hd
          obtain ⟨producer, _, rfl⟩ := hd
          exact hne1 (eq_of_beq hpred)
        rw [show ((rest.filter (fun e => !(e.1 == sid))).flatMap
              (fun e => e.2.producers.map (mkDescriptor e.1))) =
            getProducersHandler rest sid from rfl]
        rw [hfirst, List.nil_append]
        exact ih hNodupRest hRest

/-- The direction chosen by `createWebRtcTransport` is "recv" exactly for
a payload whose `type` field is the string "recv". -/
theorem transportTypeOf_eq_recv_iff (data : Option TransportPayload) :
    transportTypeOf data = ("recv") ↔ data = some { ttype := some ("recv") } := by
  cases data with
  | none =>
    simp only [transportTypeOf]
    constructor
    · intro h
      exact absurd h (by decide)
    · intro h
      exact absurd h (by simp)
  | some d =>
    by_cases hd : (d.ttype == some ("recv")) = true
    · have hEq : d.ttype = some ("recv") := eq_of_beq hd
      simp [transportTypeOf, hd]
      cases d
      simp_all
    · simp only [transportTypeOf, hd, Bool.false_eq_true, if_false]
      constructor
      · intro h
        exact absurd h (by decide)
      · intro h
        apply absurd hd
        simp only [Option.some.injEq] at h
        rw [h]
        simp


/-- Claim C2, as stated, fails on the code: after client "A" creates two
send transports without closing the first, its session tracks both, so
the "at most one send transport, later creation replaces" invariant is
violated at this reachable state. -/
theorem c2_counterexample :
    lookupPeer stateA2 ("A") = some stateA2peer ∧
    ¬ atMostOnePerDirection stateA2peer := by
  constructor
  · rfl
  · decide

/-- C2 (amended): a session's transports collection can hold several
transports with the same direction tag: a later successful
`createWebRtcTransport` appends the new handle after the existing ones,
retaining every prior handle, and the count of transports of the created
direction grows by one (no replacement takes place). -/
theorem c2_amended_transports_accumulate (ps : Peers) (sid : String)
    (data : Option TransportPayload) (freshTid : String) (peer : Peer)
    (hLook : lookupPeer ps sid = some peer) :
    ∃ t : Transport,
      t.tType = transportTypeOf data ∧
      lookupPeer (createWebRtcTransportHandler ps sid data freshTid).1 sid =
        some { peer with transports := peer.transports ++ [t] } ∧
      ∀ s : String,
        ((peer.transports ++ [t]).filter (fun x => x.tType == s)).length =
          (peer.transports.filter (fun x => x.tType == s)).length +
            (if (t.tType == s) = true then 1 else 0) := by
  refine ⟨{ id := freshTid, socketId := sid, tType := transportTypeOf data,
            closeFails := false }, rfl, ?_, ?_⟩
  · unfold createWebRtcTransportHandler
    rw [hLook]
    exact lookupPeer_setPeer_self ps sid peer _ hLook
  · intro s
    rw [List.filter_append, List.length_append]
    by_cases hs : (transportTypeOf data == s) = true
    · simp [List.filter, hs]
    · simp [List.filter, hs]

/-- Witness for the amended C2 at a concrete input: client "A" already
holds send transport "t1" and creates a second send transport "t2"; both
are tracked afterwards. -/
theorem c2_amended_transports_accumulate_witness :
    lookupPeer stateA1 ("A") = some peerA1 ∧
    (∃ t : Transport,
      t.tType = transportTypeOf (some { ttype := some ("send") }) ∧
      lookupPeer (createWebRtcTransportHandler stateA1 ("A")
          (some { ttype := some ("send") }) ("t2")).1 ("A") =
        some { peerA1 with transports := peerA1.transports ++ [t] } ∧
      ∀ s : String,
        ((peerA1.transports ++ [t]).filter (fun x => x.tType == s)).length =
          (peerA1.transports.filter (fun x => x.tType == s)).length +
            (if (t.tType == s) = true then 1 else 0)) :=
  ⟨by rfl, c2_amended_transports_accumulate stateA1 ("A")
      (some { ttype := some ("send") }) ("t2") peerA1 (by rfl)⟩

/-- Claim C3, as stated, fails on the code: running the teardown sequence
a second time for the already-removed peer "A" still broadcasts a
`participantLeft` event, because the broadcast is emitted before the
registry is consulted. -/
theorem c3_counterexample : ¬ secondTeardownSilent stateA ("A") := by decide

/-- C3 (amended): a second run of the teardown sequence for the same peer
id performs no state change and produces no error reply, but it does
broadcast one more `participantLeft` event, since that broadcast is
unconditional. -/
theorem c3_amended_second_teardown (ps : Peers) (sid : String) :
    (disconnectHandler (disconnectHandler ps sid).1 sid).1 =
      (disconnectHandler ps sid).1 ∧
    (∀ a ∈ (disconnectHandler (disconnectHandler ps sid).1 sid).2,
      isReplyError a = false) ∧
    (disconnectHandler (disconnectHandler ps sid).1 sid).2.countP
      isEmitParticipantLeft = 1 := by
  have h2 : lookupPeer (deletePeer ps sid) sid = none :=
    lookupPeer_deletePeer_self ps sid
  have htr : (disconnectHandler (disconnectHandler ps sid).1 sid).2 =
      [Action.emitParticipantLeft sid, Action.registryDelete sid] := by
    show (disconnectHandler (deletePeer ps sid) sid).2 = _
    unfold disconnectHandler
    rw [h2]
    rfl
  refine ⟨deletePeer_deletePeer ps sid, ?_, ?_⟩
  · intro a ha
    rw [htr] at ha
    rcases List.mem_cons.mp ha with rfl | ha
    · rfl
    · rcases List.mem_cons.mp ha with rfl | ha
      · rfl
      · simp at ha
  · rw [htr]
    rfl

/-- Claim C4, as stated, fails on the code: at a reachable state where
peer "A" holds one transport, the teardown trace closes the transport
before the registry entry is removed, so registry removal does not
precede the transport-close step. -/
theorem c4_counterexample :
    removalPrecedesCloses (disconnectHandler stateA1 ("A")).2 = false := by decide

/-- C4 (amended): the teardown sequence broadcasts `participantLeft`
first, then looks the session up (leaving it registered) and closes each
of its transports in order, and removes the session from the registry
last. -/
theorem c4_amended_teardown_order (ps : Peers) (sid : String) (peer : Peer)
    (hLook : lookupPeer ps sid = some peer) :
    (disconnectHandler ps sid).2 =
      Action.emitParticipantLeft sid ::
        (peer.transports.map (fun t => Action.closeTransport t.id t.closeFails) ++
          [Action.registryDelete sid]) ∧
    (disconnectHandler ps sid).1 = deletePeer ps sid := by
  constructor
  · unfold disconnectHandler
    rw [hLook]
    rfl
  · rfl

/-- Witness for the amended C4 at a concrete input: teardown of "A" in
the one-transport state follows broadcast, close, registry removal. -/
theorem c4_amended_teardown_order_witness :
    lookupPeer stateA1 ("A") = some peerA1 ∧
    ((disconnectHandler stateA1 ("A")).2 =
      Action.emitParticipantLeft ("A") ::
        (peerA1.transports.map (fun t => Action.closeTransport t.id t.closeFails) ++
          [Action.registryDelete ("A")]) ∧
    (disconnectHandler stateA1 ("A")).1 = deletePeer stateA1 ("A")) :=
  ⟨by rfl, c4_amended_teardown_order stateA1 ("A") peerA1 (by rfl)⟩

/-- C8: `connectTransport` looks the transport up by id within the
requesting peer's own session: an absent id yields exactly the
transport-not-found error reply with no engine call, while a present id
yields the engine connect on that transport followed by the
`{connected: true}` reply. -/
theorem c8_connectTransport_lookup (ps : Peers) (sid tid : String) (peer : Peer)
    (hLook : lookupPeer ps sid = some peer) :
    (peer.transports.find? (fun x => x.id == tid) = none →
      connectTransportHandler ps sid tid =
        (ps, [Action.replyError
          ("Failed to connect transport: Transport with ID " ++ tid ++ " not found")])) ∧
    (∀ t, peer.transports.find? (fun x => x.id == tid) = some t →
      t ∈ peer.transports ∧ t.id = tid ∧
      connectTransportHandler ps sid tid =
        (ps, [Action.engineConnect t.id, Action.replyConnected])) := by
  constructor
  · intro hNone
    simp only [connectTransportHandler, hLook, hNone]
  · intro t hSome
    have hp : (t.id == tid) = true := by simpa using List.find?_some hSome
    refine ⟨List.mem_of_find?_eq_some hSome, eq_of_beq hp, ?_⟩
    simp only [connectTransportHandler, hLook, hSome]

/-- Witness for C8 at a concrete input: session "A" holds transport "t1";
connecting "t1" delegates to the engine and replies connected. -/
theorem c8_connectTransport_lookup_witness :
    lookupPeer stateA1 ("A") = some peerA1 ∧
    ((peerA1.transports.find? (fun x => x.id == ("t1")) = none →
      connectTransportHandler stateA1 ("A") ("t1") =
        (stateA1, [Action.replyError
          ("Failed to connect transport: Transport with ID " ++ ("t1") ++ " not found")])) ∧
    (∀ t, peerA1.transports.find? (fun x => x.id == ("t1")) = some t →
      t ∈ peerA1.transports ∧ t.id = ("t1") ∧
      connectTransportHandler stateA1 ("A") ("t1") =
        (stateA1, [Action.engineConnect t.id, Action.replyConnected]))) :=
  ⟨by rfl, c8_connectTransport_lookup stateA1 ("A") ("t1") peerA1 (by rfl)⟩

/-- C10: the transport created by `createWebRtcTransport` is tagged
"recv" exactly when the request payload is present with `type` equal to
the string "recv"; for every other payload the tag is "send", and the
new transport is appended to the requesting session. -/
theorem c10_createWebRtcTransport_direction (ps : Peers) (sid : String)
    (data : Option TransportPayload) (freshTid : String) (peer : Peer)
    (hLook : lookupPeer ps sid = some peer) :
    ∃ t : Transport,
      lookupPeer (createWebRtcTransportHandler ps sid data freshTid).1 sid =
        some { peer with transports := peer.transports ++ [t] } ∧
      (t.tType = ("recv") ↔ data = some { ttype := some ("recv") }) ∧
      (t.tType = ("recv") ∨ t.tType = ("send")) := by
  refine ⟨{ id := freshTid, socketId := sid, tType := transportTypeOf data,
            closeFails := false }, ?_, ?_, ?_⟩
  · unfold createWebRtcTransportHandler
    rw [hLook]
    exact lookupPeer_setPeer_self ps sid peer _ hLook
  · exact transportTypeOf_eq_recv_iff data
  · cases data with
    | none => right; rfl
    | some d =>
      by_cases hd : (d.ttype == some ("recv")) = true
      · left
        simp [transportTypeOf, hd]
      · right
        simp [transportTypeOf, hd]

/-- Witness for C10 at a concrete input: a payload with type "recv"
produces a transport tagged "recv" appended to session "A". -/
theorem c10_createWebRtcTransport_direction_witness :
    lookupPeer stateA ("A") = some emptyPeer ∧
    (∃ t : Transport,
      lookupPeer (createWebRtcTransportHandler stateA ("A")
          (some { ttype := some ("recv") }) ("t9")).1 ("A") =
        some { emptyPeer with transports := emptyPeer.transports ++ [t] } ∧
      (t.tType = ("recv") ↔
        (some { ttype := some ("recv") } : Option TransportPayload) =
          some { ttype := some ("recv") }) ∧
      (t.tType = ("recv") ∨ t.tType = ("send"))) :=
  ⟨by rfl, c10_createWebRtcTransport_direction stateA ("A")
      (some { ttype := some ("recv") }) ("t9") emptyPeer (by rfl)⟩

/-- C5: a `consume` request whose RTP capabilities the engine judges
incompatible fails with the cannot-consume error, creates no engine-side
consumer, and leaves the session state (in particular its consumers set)
unchanged: the compatibility check precedes resource creation. -/
theorem c5_consume_incompatible_no_creation (eng : Engine) (ps : Peers)
    (sid producerId : String) (caps : RtpCaps) (transportId : Option String)
    (freshCid : String) (peer : Peer) (t : Transport)
    (hLook : lookupPeer ps sid = some peer)
    (hSel : selectTransport peer transportId = some t)
    (hIncompat : eng.canConsume producerId caps = false) :
    consumeHandler eng ps sid producerId caps transportId freshCid =
      (ps, [Action.replyError
        ("Failed to consume producer: Client (socket: " ++ t.socketId ++
          ") cannot consume producer " ++ producerId)]) ∧
    (∀ a ∈ (consumeHandler eng ps sid producerId caps transportId freshCid).2,
      isEngineCreateConsumer a = false) ∧
    (consumeHandler eng ps sid producerId caps transportId freshCid).1 = ps := by
  have hres : consumeHandler eng ps sid producerId caps transportId freshCid =
      (ps, [Action.replyError
        ("Failed to consume producer: Client (socket: " ++ t.socketId ++
          ") cannot consume producer " ++ producerId)]) := by
    simp [consumeHandler, hLook, hSel, hIncompat]
  refine ⟨hres, ?_, ?_⟩
  · intro a ha
    rw [hres] at ha
    rcases List.mem_cons.mp ha with rfl | ha
    · rfl
    · simp at ha
  · rw [hres]

/-- Witness for C5 at a concrete input: session "A" owns recv transport
"r1" and the engine refuses the pair, so the request fails without
creating anything. -/
theorem c5_consume_incompatible_no_creation_witness :
    lookupPeer stateRecv ("A") = some peerRecv ∧
    selectTransport peerRecv none = some recvT1 ∧
    refuseEngine.canConsume ("p1") ("caps") = false ∧
    (consumeHandler refuseEngine stateRecv ("A") ("p1") ("caps") none ("c1") =
      (stateRecv, [Action.replyError
        ("Failed to consume producer: Client (socket: " ++ recvT1.socketId ++
          ") cannot consume producer " ++ ("p1"))]) ∧
    (∀ a ∈ (consumeHandler refuseEngine stateRecv ("A") ("p1") ("caps") none ("c1")).2,
      isEngineCreateConsumer a = false) ∧
    (consumeHandler refuseEngine stateRecv ("A") ("p1") ("caps") none ("c1")).1 = stateRecv) :=
  ⟨by rfl, by rfl, by rfl,
    c5_consume_incompatible_no_creation refuseEngine stateRecv ("A") ("p1") ("caps")
      none ("c1") peerRecv recvT1 (by rfl) (by rfl) (by rfl)⟩

/-- C6: a `consume` request that omits `transportId` selects the first
"recv"-tagged transport of the requesting peer's own session (any engine
consumer it creates is created on that transport), and when that session
holds no "recv"-tagged transport it fails with the no-receiving-transport
error, creating nothing and leaving the state unchanged. -/
theorem c6_consume_omitted_selects_recv (eng : Engine) (ps : Peers)
    (sid producerId : String) (caps : RtpCaps) (freshCid : String) (peer : Peer)
    (hLook : lookupPeer ps sid = some peer) :
    (peer.transports.find? (fun x => x.tType == ("recv")) = none →
      consumeHandler eng ps sid producerId caps none freshCid =
        (ps, [Action.replyError
          ("Failed to consume producer: No receiving transport found. Please create one.")])) ∧
    (∀ t, peer.transports.find? (fun x => x.tType == ("recv")) = some t →
      t ∈ peer.transports ∧ t.tType = ("recv") ∧
      (∀ a ∈ (consumeHandler eng ps sid producerId caps none freshCid).2,
        isEngineCreateConsumer a = true →
          a = Action.engineCreateConsumer producerId t.id)) := by
  constructor
  · intro hNone
    have hSel : selectTransport peer none = none := hNone
    simp [consumeHandler, hLook, hSel]
  · intro t hSome
    have hSel : selectTransport peer none = some t := hSome
    have hp : (t.tType == ("recv")) = true := by simpa using List.find?_some hSome
    refine ⟨List.mem_of_find?_eq_some hSome, eq_of_beq hp, ?_⟩
    intro a ha hIs
    cases hc : eng.canConsume producerId caps with
    | true =>
      simp [consumeHandler, hLook, hSel, hc] at ha
      rcases ha with rfl | rfl | rfl
      · rfl
      · simp [isEngineCreateConsumer] at hIs
      · simp [isEngineCreateConsumer] at hIs
    | false =>
      simp [consumeHandler, hLook, hSel, hc] at ha
      rw [ha] at hIs
      simp [isEngineCreateConsumer] at hIs

/-- Witness for C6 at a concrete input: session "A" holds only the send
transport "t1", so an omitted-transport consume fails with the
no-receiving-transport error. -/
theorem c6_consume_omitted_selects_recv_witness :
    lookupPeer stateA1 ("A") = some peerA1 ∧
    ((peerA1.transports.find? (fun x => x.tType == ("recv")) = none →
      consumeHandler refuseEngine stateA1 ("A") ("p1") ("caps") none ("c1") =
        (stateA1, [Action.replyError
          ("Failed to consume producer: No receiving transport found. Please create one.")])) ∧
    (∀ t, peerA1.transports.find? (fun x => x.tType == ("recv")) = some t →
      t ∈ peerA1.transports ∧ t.tType = ("recv") ∧
      (∀ a ∈ (consumeHandler refuseEngine stateA1 ("A") ("p1") ("caps") none ("c1")).2,
        isEngineCreateConsumer a = true →
          a = Action.engineCreateConsumer ("p1") t.id))) :=
  ⟨by rfl, c6_consume_omitted_selects_recv refuseEngine stateA1 ("A") ("p1") ("caps")
      ("c1") peerA1 (by rfl)⟩

/-- C9: during teardown every transport of the session receives a close
attempt even when some transport raises on close (each attempt is wrapped
in its own try/catch), and the session is removed from the registry. -/
theorem c9_teardown_closes_all_despite_failure (ps : Peers) (sid : String)
    (peer : Peer) (t0 : Transport)
    (hLook : lookupPeer ps sid = some peer)
    (hMem : t0 ∈ peer.transports) (hFail : t0.closeFails = true) :
    (∀ t ∈ peer.transports,
      Action.closeTransport t.id t.closeFails ∈ (disconnectHandler ps sid).2) ∧
    lookupPeer (disconnectHandler ps sid).1 sid = none := by
  constructor
  · intro t ht
    have htr : (disconnectHandler ps sid).2 =
        Action.emitParticipantLeft sid ::
          (peer.transports.map (fun x => Action.closeTransport x.id x.closeFails) ++
            [Action.registryDelete sid]) := by
      unfold disconnectHandler
      rw [hLook]
      rfl
    rw [htr]
    exact List.mem_cons_of_mem _
      (List.mem_append_left _ (List.mem_map.mpr ⟨t, ht, rfl⟩))
  · exact lookupPeer_deletePeer_self ps sid

/-- Witness for C9 at a concrete input: session "A" holds transports "f1"
(whose close throws) and "f2"; both still receive close attempts and the
session is removed. -/
theorem c9_teardown_closes_all_despite_failure_witness :
    lookupPeer failState ("A") = some failPeer ∧
    failT1 ∈ failPeer.transports ∧
    failT1.closeFails = true ∧
    ((∀ t ∈ failPeer.transports,
      Action.closeTransport t.id t.closeFails ∈ (disconnectHandler failState ("A")).2) ∧
    lookupPeer (disconnectHandler failState ("A")).1 ("A") = none) :=
  ⟨by rfl, by decide, by rfl,
    c9_teardown_closes_all_despite_failure failState ("A") failPeer failT1
      (by rfl) (by decide) (by rfl)⟩

/-- C1: a successful `produce` emits exactly one `newProducer` event,
carrying the producing peer's id, the producer id, kind and appData, with
every other currently connected peer as recipient; the event occurs in
the trace strictly after the producer is recorded in the session, and in
the state at which the event fires the producer is visible to a
`getProducers` query from every other peer. -/
theorem c1_produce_single_broadcast_after_record (ps : Peers) (sid : String)
    (args : ProduceArgs) (freshPid : String) (peer : Peer) (t : Transport)
    (hLook : lookupPeer ps sid = some peer)
    (hFind : peer.transports.find? (fun x => x.id == args.transportId) = some t)
    (hSend : t.tType = ("send")) :
    ((produceHandler ps sid args freshPid).2.countP isEmitNewProducer = 1) ∧
    (∃ pre mid,
      (produceHandler ps sid args freshPid).2 =
        pre ++ Action.recordProducer sid freshPid ::
          (mid ++ [Action.emitNewProducer sid freshPid args.kind
            (args.rtpAppData ++ [(("socketId"), t.socketId)])
            ((peerIds (produceHandler ps sid args freshPid).1).filter
              (fun q => !(q == sid)))])) ∧
    (∀ q, q ∈ peerIds (produceHandler ps sid args freshPid).1 → q ≠ sid →
      ∃ d, d ∈ getProducersHandler (produceHandler ps sid args freshPid).1 q ∧
        d.socketId = sid ∧ d.producerId = freshPid ∧ d.kind = args.kind ∧
        d.appData = args.rtpAppData ++ [(("socketId"), t.socketId)]) := by
  have hcond : (t.tType == ("send")) = true := by simp [hSend]
  have hres : produceHandler ps sid args freshPid =
      (setPeer ps sid { peer with producers := peer.producers ++
          [{ id := freshPid, kind := args.kind,
             appData := args.rtpAppData ++ [(("socketId"), t.socketId)] }] },
       [Action.recordProducer sid freshPid,
        Action.replyId freshPid,
        Action.emitNewProducer sid freshPid args.kind
          (args.rtpAppData ++ [(("socketId"), t.socketId)])
          ((peerIds (setPeer ps sid { peer with producers := peer.producers ++
              [{ id := freshPid, kind := args.kind,
                 appData := args.rtpAppData ++ [(("socketId"), t.socketId)] }] })).filter
            (fun q => !(q == sid)))]) := by
    simp [produceHandler, hLook, hFind, hcond]
  refine ⟨?_, ?_, ?_⟩
  · rw [hres]
    rfl
  · refine ⟨[], [Action.replyId freshPid], ?_⟩
    rw [hres]
    rfl
  · intro q hq hqne
    refine ⟨mkDescriptor sid
      { id := freshPid, kind := args.kind,
        appData := args.rtpAppData ++ [(("socketId"), t.socketId)] },
      ?_, rfl, rfl, rfl, rfl⟩
    rw [hres, mem_getProducers]
    refine ⟨sid, { peer with producers := peer.producers ++
        [{ id := freshPid, kind := args.kind,
           appData := args.rtpAppData ++ [(("socketId"), t.socketId)] }] },
      mem_setPeer_self ps sid peer _ hLook, Ne.symm hqne,
      { id := freshPid, kind := args.kind,
        appData := args.rtpAppData ++ [(("socketId"), t.socketId)] }, ?_, rfl⟩
    simp

/-- Witness for C1 at a concrete input: "A" (owning send transport "t1")
produces "p1" while "B" is connected; one broadcast reaches "B" after the
producer is recorded, and "B" can query it. -/
theorem c1_produce_single_broadcast_after_record_witness :
    lookupPeer stateAB ("A") = some peerA1 ∧
    peerA1.transports.find? (fun x => x.id == ("t1")) = some sendT1 ∧
    sendT1.tType = ("send") ∧
    (((produceHandler stateAB ("A")
        { transportId := ("t1"), kind := ("audio"), rtpAppData := [] }
        ("p1")).2.countP isEmitNewProducer = 1) ∧
    (∃ pre mid,
      (produceHandler stateAB ("A")
        { transportId := ("t1"), kind := ("audio"), rtpAppData := [] }
        ("p1")).2 =
        pre ++ Action.recordProducer ("A") ("p1") ::
          (mid ++ [Action.emitNewProducer ("A") ("p1") ("audio")
            (([] : List (String × String)) ++ [(("socketId"), sendT1.socketId)])
            ((peerIds (produceHandler stateAB ("A")
                { transportId := ("t1"), kind := ("audio"), rtpAppData := [] }
                ("p1")).1).filter (fun q => !(q == ("A"))))])) ∧
    (∀ q, q ∈ peerIds (produceHandler stateAB ("A")
        { transportId := ("t1"), kind := ("audio"), rtpAppData := [] }
        ("p1")).1 → q ≠ ("A") →
      ∃ d, d ∈ getProducersHandler (produceHandler stateAB ("A")
          { transportId := ("t1"), kind := ("audio"), rtpAppData := [] }
          ("p1")).1 q ∧
        d.socketId = ("A") ∧ d.producerId = ("p1") ∧ d.kind = ("audio") ∧
        d.appData = ([] : List (String × String)) ++ [(("socketId"), sendT1.socketId)])) :=
  ⟨by rfl, by rfl, by rfl,
    c1_produce_single_broadcast_after_record stateAB ("A")
      { transportId := ("t1"), kind := ("audio"), rtpAppData := [] }
      ("p1") peerA1 sendT1 (by rfl) (by rfl) (by rfl)⟩

/-- C7: `getProducers` returns exactly the descriptors of the producers
of every session other than the requester's own (never one attributed to
the requester); with the registry's unique keys, the descriptors
attributed to one other peer are exactly that peer's producer list in
insertion order; and when no other session owns a producer the result is
empty. -/
theorem c7_getProducers_exactly_others (ps : Peers) (sid : String)
    (hNodup : (peerIds ps).Nodup) :
    (∀ d ∈ getProducersHandler ps sid, d.socketId ≠ sid) ∧
    (∀ d, d ∈ getProducersHandler ps sid ↔
      ∃ q peerQ, (q, peerQ) ∈ ps ∧ q ≠ sid ∧
        ∃ producer ∈ peerQ.producers, d = mkDescriptor q producer) ∧
    (∀ q peerQ, (q, peerQ) ∈ ps → q ≠ sid →
      (getProducersHandler ps sid).filter (fun d => d.socketId == q) =
        peerQ.producers.map (mkDescriptor q)) ∧
    ((∀ q peerQ, (q, peerQ) ∈ ps → q ≠ sid → peerQ.producers = []) →
      getProducersHandler ps sid = []) := by
  refine ⟨?_, ?_, ?_, ?_⟩
  · intro d hd
    rw [mem_getProducers] at hd
    obtain ⟨q, peerQ, _, hne, producer, _, rfl⟩ := hd
    simpa [mkDescriptor] using hne
  · intro d
    exact mem_getProducers ps sid d
  · intro q peerQ hMem hq
    exact getProducers_filter_key ps sid q peerQ hNodup hMem hq
  · intro hEmpty
    rw [List.eq_nil_iff_forall_not_mem]
    intro d hd
    rw [mem_getProducers] at hd
    obtain ⟨q, peerQ, hMem, hne, producer, hpMem, _⟩ := hd
    rw [hEmpty q peerQ hMem hne] at hpMem
    simp at hpMem

/-- Witness for C7 at a concrete input: with producing "A" and requester
"B", the result is exactly the descriptor list of "A"; the quantified
conclusions are instantiated by applying the theorem. -/
theorem c7_getProducers_exactly_others_witness :
    (peerIds demoState).Nodup ∧
    ((∀ d ∈ getProducersHandler demoState ("B"), d.socketId ≠ ("B")) ∧
    (∀ d, d ∈ getProducersHandler demoState ("B") ↔
      ∃ q peerQ, (q, peerQ) ∈ demoState ∧ q ≠ ("B") ∧
        ∃ producer ∈ peerQ.producers, d = mkDescriptor q producer) ∧
    (∀ q peerQ, (q, peerQ) ∈ demoState → q ≠ ("B") →
      (getProducersHandler demoState ("B")).filter (fun d => d.socketId == q) =
        peerQ.producers.map (mkDescriptor q)) ∧
    ((∀ q peerQ, (q, peerQ) ∈ demoState → q ≠ ("B") → peerQ.producers = []) →
      getProducersHandler demoState ("B") = [])) :=
  ⟨by decide, c7_getProducers_exactly_others demoState ("B") (by decide)⟩

end VidConf
